import Mathlib

/-!
Shallow embedding of `monitor.py` (jupyter-vim IPython monitor).

The module observes a kernel's iopub broadcast stream and renders a
terminal transcript.  We model the message-handling core exactly:

* `colorize`, `colors`   — the module-level colour renderer;
* `IPythonMonitor` state — `clients`, `execution_count_id`,
  `last_msg_type`, `last_execution_count`;
* the handlers `pyin`, `pyout`, `display_data`, `pyerr`, `stream`,
  `status`, `clear_output`, `other` and the aliases
  `execute_input = pyin`, `execute_result = pyout`, `error = pyerr`;
* the per-message body of `listen` (shutdown check, marker
  registration, session filter, dynamic dispatch).

Terminal writes are modelled as accumulated strings; `sys.exit(0)` as a
dedicated loop result; an uncaught Python exception as `crash`.

Modelling conventions, stated once:
* message fields the code reads unconditionally (`code`, `parent msg_id`,
  `text/plain`, `traceback`, `execution_state`) are total fields — a
  malformed message lacking them would raise `KeyError` in Python and is
  outside the protocol; fields whose *presence* the code tests
  (`execution_count` via `in`, a stream's `data` via `try/except`) are
  `Option`s;
* `highlight` models the `ImportError` fallback
  `highlight = lambda code, *args: code` (identity) used when pygments
  is absent;
* Python's `getattr(self, msg_type, self.other)` would also find the
  class's non-handler attributes; calling one of those with a message
  raises, which we model as `crash` for the class-defined attribute
  names (inherited `object` dunders are outside the model).
-/

namespace Monitor

/-- Python `str.isspace` characters relevant to `strip`/`rstrip`. -/
def pyIsSpace (c : Char) : Bool :=
  c == ' ' || c == '\t' || c == '\n' || c == '\r' || c == '\x0b' || c == '\x0c'

/-- Python `str.rstrip()` with no argument. -/
def pyRstrip (s : String) : String :=
  String.mk ((s.data.reverse.dropWhile pyIsSpace).reverse)

/-- Python `str.strip()` with no argument. -/
def pyStrip (s : String) : String :=
  String.mk (((s.data.dropWhile pyIsSpace).reverse.dropWhile pyIsSpace).reverse)

/-- The `colors` dict: `{k: i for i, k in enumerate([...])}`. -/
def colors (s : String) : Option Nat :=
  match s with
  | "black" => some 0
  | "red" => some 1
  | "green" => some 2
  | "yellow" => some 3
  | "blue" => some 4
  | "magenta" => some 5
  | "cyan" => some 6
  | "white" => some 7
  | _ => none

/-- A Python colour argument: either a `str` palette name or an `int`
terminal colour code (the `isinstance(color, str)` branch). -/
inductive PyColor where
  | str (s : String)
  | int (n : Int)
  deriving DecidableEq, Repr

/-- `colorize(string, color, bold, bright)`.  Returns `none` exactly when
Python would raise `KeyError` (a colour name outside the palette). -/
def colorize (string : String) (color : PyColor) (bold : Bool) (bright : Bool) :
    Option String :=
  match color with
  | PyColor.str s =>
    (colors s).map fun k =>
      let code := "\x1b[" ++ toString (k + (if bright then 90 else 30))
      code ++ (if bold then ";1" else "") ++ "m" ++ string ++ "\x1b[0m"
  | PyColor.int n =>
    let code := "\x1b[38;5;" ++ toString n
    some (code ++ (if bold then ";1" else "") ++ "m" ++ string ++ "\x1b[0m")

/-- The always-successful `int`-colour branch of `colorize`, used by the
handlers (all their colour literals are ints, except the palette name
`"cyan"` in `stream`, which also cannot fail). -/
def colorizeInt (string : String) (n : Int) (bold : Bool) : String :=
  "\x1b[38;5;" ++ toString n ++ (if bold then ";1" else "") ++ "m" ++ string ++ "\x1b[0m"

/-- `colorize` with an `int` colour never fails and agrees with
`colorizeInt` (`bright` is ignored on that branch, as in the source). -/
theorem colorize_int_eq (s : String) (n : Int) (bold bright : Bool) :
    colorize s (PyColor.int n) bold bright = some (colorizeInt s n bold) := rfl

/-- The pygments fallback `highlight = lambda code, *args: code`. -/
def highlight (code : String) : String := code

/-- The sentinel marker code sent by the Vim client:
`'"_vim_client";_=_;__=__'`. -/
def marker : String := "\"_vim_client\";_=_;__=__"

/-- A broadcast (iopub) message, restricted to the fields `monitor.py`
reads.  `session` is `msg['parent_header'].get('session', '')`;
`parent_msg_id` is `msg['parent_header']['msg_id']`; the remaining
fields live under `msg['content']`. -/
structure Msg where
  msg_type : String
  session : String
  parent_msg_id : String
  code : String
  execution_count : Option Int
  text_plain : String
  traceback : List String
  execution_state : String
  stream_data : Option String
  stream_text : String
  deriving DecidableEq, Repr

/-- The mutable state of `IPythonMonitor` (`__init__`). -/
structure MonitorState where
  clients : List String
  execution_count_id : Option String
  last_msg_type : Option String
  last_execution_count : Int
  deriving DecidableEq, Repr

/-- The initial state built by `IPythonMonitor.__init__`. -/
def initState : MonitorState :=
  { clients := [], execution_count_id := none,
    last_msg_type := none, last_execution_count := 0 }

/-- Python `set.add` on the `clients` set, modelled on a duplicate-free
list: a no-op when the element is already present. -/
def insertClient (c : String) (l : List String) : List String :=
  if c ∈ l then l else l ++ [c]

/-- `print_prompt(start, color, num_color, count_offset)`: first
component is what is written to stdout (three `colorize` chunks), second
is the returned plain string `'%s [%s]: ' % (start.strip(), count)`. -/
def print_prompt (st : MonitorState) (start : String) (color : Int)
    (num_color : Int) (count_offset : Int) : String × String :=
  let count := toString (st.last_execution_count + count_offset)
  (colorizeInt (pyRstrip start ++ " [") color false ++
     colorizeInt count num_color true ++
     colorizeInt "]: " color false,
   pyStrip start ++ " [" ++ count ++ "]: ")

/-- Left-to-right, non-overlapping replacement of a non-empty pattern
in a character list; the fuel argument (instantiated with the input
length, which bounds the number of steps) keeps the recursion
structural. -/
def pyReplaceAux (pat rep : List Char) : Nat → List Char → List Char
  | 0, l => l
  | _ + 1, [] => []
  | fuel + 1, c :: rest =>
    if pat.isPrefixOf (c :: rest) then
      rep ++ pyReplaceAux pat rep fuel (rest.drop (pat.length - 1))
    else c :: pyReplaceAux pat rep fuel rest

/-- Python `str.replace` (for the non-empty patterns the source uses):
replaces every occurrence of `pat` in `s` by `rep`, scanning left to
right without overlap. -/
def pyReplace (s pat rep : String) : String :=
  String.mk (pyReplaceAux pat.data rep.data s.data.length s.data)

/-- `pyin` (alias `execute_input`).  Reads `content['execution_count']`
unconditionally, so a message without it raises (`none`).  Sets
`last_execution_count` from the event *before* rendering the prompt,
then writes `'\r'`, the prompt, and the highlighted code with
continuation lines indented by the prompt width. -/
def pyin (st : MonitorState) (msg : Msg) : Option (MonitorState × String) :=
  match msg.execution_count with
  | none => none
  | some ec =>
    let st1 := { st with last_execution_count := ec }
    let p := print_prompt st1 "In" 28 46 0
    let dots := String.mk (List.replicate ((pyRstrip p.2).length - 1) ' ') ++ ": "
    let code := highlight msg.code
    let output := pyReplace (pyRstrip code) "\n" ("\n" ++ colorizeInt dots 28 false)
    some ({ st1 with
            execution_count_id := some msg.parent_msg_id,
            last_msg_type := some msg.msg_type },
          "\r" ++ p.1 ++ output)

/-- `pyout` (alias `execute_result`).  When `execution_count` is present
it updates `last_execution_count` and `execution_count_id` first; with
`prompt=True` it renders an `Out` prompt and a leading newline when the
value is multi-line.  The source's `spaces=''` parameter is unused. -/
def pyout (st : MonitorState) (msg : Msg) (prompt : Bool) : MonitorState × String :=
  let st1 :=
    match msg.execution_count with
    | some ec =>
      { st with
        last_execution_count := ec,
        execution_count_id := some msg.parent_msg_id }
    | none => st
  let output := msg.text_plain
  let body :=
    if prompt then
      (print_prompt st1 "\nOut" 196 196 0).1 ++
        (if output.data.contains '\n' then "\n" else "") ++ output
    else output
  ({ st1 with last_msg_type := some msg.msg_type }, body)

/-- `display_data`: a newline, then `pyout` without a prompt. -/
def display_data (st : MonitorState) (msg : Msg) : MonitorState × String :=
  let r := pyout st msg false
  (r.1, "\n" ++ r.2)

/-- `pyerr` (alias `error`): each traceback line preceded by a newline;
a fresh `In` prompt (at the *current* count — offset 0) only when the
previous rendered message was not an input echo. -/
def pyerr (st : MonitorState) (msg : Msg) : MonitorState × String :=
  let tb := String.join (msg.traceback.map (fun line => "\n" ++ line))
  let prompt :=
    if st.last_msg_type ∈ [some "execute_input", some "pyin"] then ""
    else (print_prompt st "\nIn" 28 46 0).1
  ({ st with last_msg_type := some msg.msg_type }, tb ++ prompt)

/-- `stream`: leading newline unless the previous rendered message was
an error or another stream; the text is `content['data']` with a
`KeyError` fallback to `content['text']` (`Option.getD`), rendered
bright cyan (a palette lookup that cannot fail, hence `getD ""`). -/
def stream (st : MonitorState) (msg : Msg) : MonitorState × String :=
  let lead :=
    if st.last_msg_type ∈ [some "pyerr", some "error", some "stream"] then "" else "\n"
  let data := msg.stream_data.getD msg.stream_text
  ({ st with last_msg_type := some msg.msg_type },
   lead ++ (colorize data (PyColor.str "cyan") false true).getD "")

/-- `status`: only an `idle` state whose parent msg id equals the stored
`execution_count_id` renders a fresh prompt at `count + 1` and clears
the stored id; everything else is a no-op.  `last_msg_type` is not
touched. -/
def status (st : MonitorState) (msg : Msg) : MonitorState × String :=
  if msg.execution_state == "idle" && some msg.parent_msg_id == st.execution_count_id then
    ({ st with execution_count_id := none }, (print_prompt st "\nIn" 28 46 1).1)
  else (st, "")

/-- `clear_output`: `print('\n')` (two newlines) when the previous
rendered message was an input echo, then the clear-line escape; no state
field changes. -/
def clear_output (st : MonitorState) (_msg : Msg) : MonitorState × String :=
  (st,
   (if st.last_msg_type ∈ [some "execute_input", some "pyin"] then "\n\n" else "") ++
     "\x1b[2K\r")

/-- Models Python `str(msg)` in `other`: a rendering of the whole
message dict, mentioning every field. -/
def msgRepr (msg : Msg) : String :=
  "msg_type: " ++ msg.msg_type ++
  ", session: " ++ msg.session ++
  ", parent_msg_id: " ++ msg.parent_msg_id ++
  ", code: " ++ msg.code ++
  ", execution_count: " ++
    (match msg.execution_count with
     | some n => toString n
     | none => "absent") ++
  ", text_plain: " ++ msg.text_plain ++
  ", traceback: " ++ String.intercalate "; " msg.traceback ++
  ", execution_state: " ++ msg.execution_state ++
  ", stream_data: " ++ msg.stream_data.getD "absent" ++
  ", stream_text: " ++ msg.stream_text

/-- The fallback handler `other`: two `print` lines (each appending a
newline) naming the message type and the full message.  It does *not*
update `last_msg_type` or any other field. -/
def other (st : MonitorState) (msg : Msg) : MonitorState × String :=
  (st, "msg_type = " ++ msg.msg_type ++ "\n" ++ ("msg = " ++ msgRepr msg ++ "\n"))

/-- The class's non-handler attributes that `getattr(self, msg_type,
self.other)` would find; calling any of them with a message raises. -/
def nonHandlerAttrs : List String :=
  ["print_prompt", "listen", "clients", "execution_count_id",
   "last_msg_type", "last_execution_count", "__init__"]

/-- `getattr(self, msg_type, self.other)(msg)`: dynamic dispatch by
message type, with the class aliases `execute_input = pyin`,
`execute_result = pyout`, `error = pyerr` and fallback `other`.
`none` models the exception raised when `msg_type` names a non-handler
attribute of the class. -/
def dispatchMsg (st : MonitorState) (msg : Msg) : Option (MonitorState × String) :=
  match msg.msg_type with
  | "pyin" => pyin st msg
  | "execute_input" => pyin st msg
  | "pyout" => some (pyout st msg true)
  | "execute_result" => some (pyout st msg true)
  | "display_data" => some (display_data st msg)
  | "pyerr" => some (pyerr st msg)
  | "error" => some (pyerr st msg)
  | "stream" => some (stream st msg)
  | "status" => some (status st msg)
  | "clear_output" => some (clear_output st msg)
  | "other" => some (other st msg)
  | t => if t ∈ nonHandlerAttrs then none else some (other st msg)

/-- Result of processing one message inside `listen`'s inner loop. -/
inductive StepOut where
  | cont (st : MonitorState) (out : String)
  | exit (code : Nat)
  | crash
  deriving DecidableEq, Repr

/-- The per-message body of `listen`: the `shutdown_reply` check comes
first (before the marker check and the session filter), then marker
registration (`continue`, no dispatch), then the unknown-session filter
(`continue`), then dynamic dispatch. -/
def processMsg (st : MonitorState) (msg : Msg) : StepOut :=
  if msg.msg_type == "shutdown_reply" then StepOut.exit 0
  else if msg.session != "" &&
      (msg.msg_type == "execute_input" || msg.msg_type == "pyin") &&
      msg.code == marker then
    StepOut.cont { st with clients := insertClient msg.session st.clients } ""
  else if msg.session ∈ st.clients then
    match dispatchMsg st msg with
    | some (st2, o) => StepOut.cont st2 o
    | none => StepOut.crash
  else StepOut.cont st ""

/-- Result of draining a list of messages through `listen`. -/
inductive RunResult where
  | ok (st : MonitorState) (out : String)
  | exited (out : String)
  | crashed (out : String)
  deriving DecidableEq, Repr

/-- Drain a batch of messages, accumulating the rendered output.
`exited` models `sys.exit(0)`; `crashed` an uncaught exception. -/
def runMsgs (st : MonitorState) (out : String) : List Msg → RunResult
  | [] => RunResult.ok st out
  | m :: rest =>
    match processMsg st m with
    | StepOut.cont st2 o => runMsgs st2 (out ++ o) rest
    | StepOut.exit _ => RunResult.exited out
    | StepOut.crash => RunResult.crashed out

/-! ### General lemmas about the embedding -/

/-- Appending strings concatenates their character data. -/
theorem strDataAppend : ∀ s t : String, (s ++ t).data = s.data ++ t.data :=
  fun _ _ => rfl

/-- String append is associative. -/
theorem strAppendAssoc (a b c : String) : a ++ b ++ c = a ++ (b ++ c) :=
  String.ext (by simp [strDataAppend])

/-- Appending the empty string is a no-op. -/
theorem strAppendEmpty (s : String) : s ++ "" = s :=
  String.ext (by simp [strDataAppend])

/-- `set.add` never removes an element. -/
theorem insertClient_mem {c a : String} {l : List String} (h : c ∈ l) :
    c ∈ insertClient a l := by
  unfold insertClient
  split
  · exact h
  · exact List.mem_append_left _ h

/-- `pyout` never touches the `clients` set. -/
theorem pyout_clients_eq (st : MonitorState) (msg : Msg) (p : Bool) :
    (pyout st msg p).1.clients = st.clients := by
  unfold pyout
  cases msg.execution_count <;> rfl

/-- `pyin` never touches the `clients` set. -/
theorem pyin_clients_eq (st : MonitorState) (msg : Msg) (st2 : MonitorState) (o : String)
    (h : pyin st msg = some (st2, o)) : st2.clients = st.clients := by
  unfold pyin at h
  cases hec : msg.execution_count with
  | none => rw [hec] at h; exact absurd h (by simp)
  | some ec =>
    rw [hec] at h
    simp only [Option.some.injEq, Prod.mk.injEq] at h
    rw [← h.1]

/-- Extracting the state of a successful dispatch result. -/
theorem someEqClients {r : MonitorState × String} {st2 : MonitorState} {o : String}
    (h : some r = some (st2, o)) : st2.clients = r.1.clients := by
  rw [Option.some.inj h]

/-- No handler reachable through dynamic dispatch modifies the
`clients` set. -/
theorem dispatchMsg_clients (st : MonitorState) (msg : Msg) (st2 : MonitorState) (o : String)
    (h : dispatchMsg st msg = some (st2, o)) : st2.clients = st.clients := by
  unfold dispatchMsg at h
  split at h
  · exact pyin_clients_eq _ _ _ _ h
  · exact pyin_clients_eq _ _ _ _ h
  · exact (someEqClients h).trans (pyout_clients_eq _ _ _)
  · exact (someEqClients h).trans (pyout_clients_eq _ _ _)
  · exact (someEqClients h).trans (pyout_clients_eq st msg false)
  · exact (someEqClients h).trans rfl
  · exact (someEqClients h).trans rfl
  · exact (someEqClients h).trans rfl
  · exact (someEqClients h).trans (by unfold status; split <;> rfl)
  · exact (someEqClients h).trans rfl
  · exact (someEqClients h).trans rfl
  · split at h
    · exact absurd h (by simp)
    · exact (someEqClients h).trans rfl

/-- A message from an unregistered session that is neither a shutdown
nor a marker registration is skipped by `listen`'s filter: no handler
runs, no state changes, nothing is written. -/
theorem processMsg_unregistered (st : MonitorState) (m : Msg)
    (h1 : m.session ∉ st.clients) (h2 : m.code ≠ marker)
    (h3 : m.msg_type ≠ "shutdown_reply") :
    processMsg st m = StepOut.cont st "" := by
  unfold processMsg
  rw [if_neg (by simp [h3]), if_neg (by simp [h2]), if_neg h1]

/-- All message types naming attributes of the `IPythonMonitor` class:
the handlers (with their aliases) and the non-handler attributes. -/
def knownAttrs : List String :=
  ["pyin", "execute_input", "pyout", "execute_result", "display_data",
   "pyerr", "error", "stream", "status", "clear_output", "other"] ++
    nonHandlerAttrs

/-- A message type outside `knownAttrs` dispatches to the `other`
fallback. -/
theorem dispatchMsg_unknown (st : MonitorState) (msg : Msg)
    (hunk : msg.msg_type ∉ knownAttrs) :
    dispatchMsg st msg = some (other st msg) := by
  have hne : ∀ t ∈ knownAttrs, msg.msg_type ≠ t := fun t ht he => hunk (he ▸ ht)
  have hsub : ∀ x ∈ nonHandlerAttrs, x ∈ knownAttrs := by decide
  unfold dispatchMsg
  split
  · exact absurd (by assumption) (hne "pyin" (by decide))
  · exact absurd (by assumption) (hne "execute_input" (by decide))
  · exact absurd (by assumption) (hne "pyout" (by decide))
  · exact absurd (by assumption) (hne "execute_result" (by decide))
  · exact absurd (by assumption) (hne "display_data" (by decide))
  · exact absurd (by assumption) (hne "pyerr" (by decide))
  · exact absurd (by assumption) (hne "error" (by decide))
  · exact absurd (by assumption) (hne "stream" (by decide))
  · exact absurd (by assumption) (hne "status" (by decide))
  · exact absurd (by assumption) (hne "clear_output" (by decide))
  · exact absurd (by assumption) (hne "other" (by decide))
  · exact if_neg (fun hmem => hunk (hsub _ hmem))

/-! ### Claim theorems -/

/-- C1: from a registered session `S`, the round trip
input-echo(counter 5, code `2+2`) → output-value(counter 5, value `4`) →
idle status correlated to the input renders exactly the code line
(`In [5]: 2+2` after a carriage return), then the `Out [5]: ` prompt
followed by `4`, then a fresh `In [6]: ` prompt, in that order, with the
only newlines being the one opening the `Out` prompt and the one opening
the fresh `In` prompt (no leading newline before the single-line value). -/
theorem round_trip_renders_in_order :
    runMsgs
      { clients := ["S"], execution_count_id := none,
        last_msg_type := none, last_execution_count := 0 } ""
      [{ msg_type := "execute_input", session := "S", parent_msg_id := "id1",
         code := "2+2", execution_count := some 5, text_plain := "",
         traceback := [], execution_state := "", stream_data := none,
         stream_text := "" },
       { msg_type := "execute_result", session := "S", parent_msg_id := "id1",
         code := "", execution_count := some 5, text_plain := "4",
         traceback := [], execution_state := "", stream_data := none,
         stream_text := "" },
       { msg_type := "status", session := "S", parent_msg_id := "id1",
         code := "", execution_count := none, text_plain := "",
         traceback := [], execution_state := "idle", stream_data := none,
         stream_text := "" }] =
    RunResult.ok
      { clients := ["S"], execution_count_id := none,
        last_msg_type := some "execute_result", last_execution_count := 5 }
      ("\r\x1b[38;5;28mIn [\x1b[0m\x1b[38;5;46;1m5\x1b[0m\x1b[38;5;28m]: \x1b[0m2+2" ++
       "\x1b[38;5;196m\nOut [\x1b[0m\x1b[38;5;196;1m5\x1b[0m\x1b[38;5;196m]: \x1b[0m4" ++
       "\x1b[38;5;28m\nIn [\x1b[0m\x1b[38;5;46;1m6\x1b[0m\x1b[38;5;28m]: \x1b[0m") := by
  set_option maxRecDepth 8000 in decide

/-- C8: `colorize` wraps its input text unchanged between a single ANSI
escape prefix determined only by `(color, bold, bright)` and the reset
sequence, for every colour that is a valid palette name or a raw
numeric code.  Purity and determinism hold by construction: the
embedding is a function of its arguments alone, exactly like the Python
function, which reads only its arguments and the constant module-level
`colors` dict. -/
theorem colorize_wraps_text (color : PyColor) (bold bright : Bool)
    (h : (∃ s k, color = PyColor.str s ∧ colors s = some k) ∨
         (∃ n, color = PyColor.int n)) :
    ∃ pre, ∀ text, colorize text color bold bright =
      some (pre ++ text ++ "\x1b[0m") := by
  rcases h with ⟨s, k, rfl, hk⟩ | ⟨n, rfl⟩
  · exact ⟨"\x1b[" ++ toString (k + if bright then 90 else 30) ++
      (if bold then ";1" else "") ++ "m",
      fun text => by simp [colorize, hk]⟩
  · exact ⟨"\x1b[38;5;" ++ toString n ++ (if bold then ";1" else "") ++ "m",
      fun text => rfl⟩

/-- C8 witness: the palette colour `red`, bold and not bright, wraps
any text in a fixed prefix and the reset suffix. -/
theorem colorize_wraps_text_witness :
    ∃ pre, ∀ text, colorize text (PyColor.str "red") true false =
      some (pre ++ text ++ "\x1b[0m") :=
  colorize_wraps_text (PyColor.str "red") true false
    (Or.inl ⟨"red", 1, rfl, rfl⟩)

/-- C9: `clear_output` leaves every state field unchanged; it emits a
blank line (Python `print('\n')`, i.e. two newlines) before the
clear-line escape exactly when the previously rendered event was an
input echo, and just the clear-line escape otherwise. -/
theorem clear_output_frame (st : MonitorState) (msg : Msg) :
    (clear_output st msg).1 = st ∧
    (st.last_msg_type ∈ [some "execute_input", some "pyin"] →
      (clear_output st msg).2 = "\n\n" ++ "\x1b[2K\r") ∧
    (st.last_msg_type ∉ [some "execute_input", some "pyin"] →
      (clear_output st msg).2 = "\x1b[2K\r") := by
  refine ⟨rfl, fun h => ?_, fun h => ?_⟩
  · simp [clear_output, h]
  · simp [clear_output, h]

/-- C9 witness: with an input echo as the previous event the blank line
is emitted; with no previous event it is not; state is unchanged. -/
theorem clear_output_frame_witness :
    (clear_output
      { clients := [], execution_count_id := none,
        last_msg_type := some "execute_input", last_execution_count := 1 }
      { msg_type := "clear_output", session := "S", parent_msg_id := "p",
        code := "", execution_count := none, text_plain := "",
        traceback := [], execution_state := "", stream_data := none,
        stream_text := "" }).2 = "\n\n" ++ "\x1b[2K\r" ∧
    (clear_output
      { clients := [], execution_count_id := none,
        last_msg_type := none, last_execution_count := 1 }
      { msg_type := "clear_output", session := "S", parent_msg_id := "p",
        code := "", execution_count := none, text_plain := "",
        traceback := [], execution_state := "", stream_data := none,
        stream_text := "" }).1 =
      { clients := [], execution_count_id := none,
        last_msg_type := none, last_execution_count := 1 } :=
  ⟨((clear_output_frame _ _).2.1 (by simp)), (clear_output_frame _ _).1⟩

/-- C10: a `shutdown_reply` message makes `listen` call `sys.exit(0)`
before the marker check and before the session filter, so the loop
terminates cleanly (exit code 0) regardless of the message's session. -/
theorem shutdown_exits_loop (st : MonitorState) (msg : Msg)
    (h : msg.msg_type = "shutdown_reply") :
    processMsg st msg = StepOut.exit 0 ∧
    ∀ out rest, runMsgs st out (msg :: rest) = RunResult.exited out := by
  have h1 : processMsg st msg = StepOut.exit 0 := by simp [processMsg, h]
  exact ⟨h1, fun out rest => by simp [runMsgs, h1]⟩

/-- C10 witness: a shutdown message from a session that is not
registered (and never seen) still terminates the loop with exit 0. -/
theorem shutdown_exits_loop_witness :
    processMsg
      { clients := ["S"], execution_count_id := none,
        last_msg_type := none, last_execution_count := 0 }
      { msg_type := "shutdown_reply", session := "foreign", parent_msg_id := "pz",
        code := "", execution_count := none, text_plain := "",
        traceback := [], execution_state := "", stream_data := none,
        stream_text := "" } = StepOut.exit 0 ∧
    runMsgs
      { clients := ["S"], execution_count_id := none,
        last_msg_type := none, last_execution_count := 0 } ""
      [{ msg_type := "shutdown_reply", session := "foreign", parent_msg_id := "pz",
         code := "", execution_count := none, text_plain := "",
         traceback := [], execution_state := "", stream_data := none,
         stream_text := "" }] = RunResult.exited "" :=
  ⟨(shutdown_exits_loop _ _ rfl).1, (shutdown_exits_loop _ _ rfl).2 "" []⟩

/-- C2: an accepted status event renders exactly one fresh
`In [N+1]: ` prompt (built from `last_execution_count + 1`) and clears
`pending_execution_id` precisely when its execution state is `idle` and
its parent id equals the stored `execution_count_id`; every other
status event produces no output and leaves the state unchanged
(in particular, a cleared — empty — pending id matches no parent id). -/
theorem status_idle_correlated_prompt (st : MonitorState) (msg : Msg)
    (hty : msg.msg_type = "status") (hacc : msg.session ∈ st.clients) :
    (msg.execution_state = "idle" →
      st.execution_count_id = some msg.parent_msg_id →
      processMsg st msg =
        StepOut.cont { st with execution_count_id := none }
          (print_prompt st "\nIn" 28 46 1).1) ∧
    ((msg.execution_state ≠ "idle" ∨
      st.execution_count_id ≠ some msg.parent_msg_id) →
      processMsg st msg = StepOut.cont st "") := by
  have hstep : processMsg st msg =
      StepOut.cont (status st msg).1 (status st msg).2 := by
    unfold processMsg dispatchMsg
    rw [hty]
    rw [if_neg (by simp), if_neg (by simp), if_pos hacc]
    rfl
  constructor
  · intro h1 h2
    rw [hstep]
    unfold status
    rw [if_pos (by simp [h1, h2])]
  · intro h
    rw [hstep]
    unfold status
    rw [if_neg ?hcond]
    case hcond =>
      rcases h with h | h
      · simp [h]
      · simp [beq_iff_eq]
        intro _
        exact fun he => h he.symm

/-- C2 witness: with pending id `id1` and counter 5, a correlated idle
status renders the `In [6]: ` prompt and clears the pending id, while a
non-idle status from the same state is a no-op. -/
theorem status_idle_correlated_prompt_witness :
    processMsg
      { clients := ["S"], execution_count_id := some "id1",
        last_msg_type := none, last_execution_count := 5 }
      { msg_type := "status", session := "S", parent_msg_id := "id1",
        code := "", execution_count := none, text_plain := "",
        traceback := [], execution_state := "idle", stream_data := none,
        stream_text := "" } =
      StepOut.cont
        { clients := ["S"], execution_count_id := none,
          last_msg_type := none, last_execution_count := 5 }
        (print_prompt
          { clients := ["S"], execution_count_id := some "id1",
            last_msg_type := none, last_execution_count := 5 }
          "\nIn" 28 46 1).1 ∧
    processMsg
      { clients := ["S"], execution_count_id := some "id1",
        last_msg_type := none, last_execution_count := 5 }
      { msg_type := "status", session := "S", parent_msg_id := "id1",
        code := "", execution_count := none, text_plain := "",
        traceback := [], execution_state := "busy", stream_data := none,
        stream_text := "" } =
      StepOut.cont
        { clients := ["S"], execution_count_id := some "id1",
          last_msg_type := none, last_execution_count := 5 } "" :=
  ⟨(status_idle_correlated_prompt _ _ rfl (by decide)).1 rfl rfl,
   (status_idle_correlated_prompt _ _ rfl (by decide)).2 (Or.inl (by decide))⟩

/-- C3 counterexample: a `shutdown_reply` event whose session is not
registered is *not* discarded — it terminates the dispatch loop — so
the claim's universal "such events are discarded" fails on shutdown
events (see C10, which states the shutdown behaviour). -/
theorem unregistered_shutdown_not_discarded :
    processMsg initState
      { msg_type := "shutdown_reply", session := "foreignX", parent_msg_id := "q",
        code := "", execution_count := none, text_plain := "",
        traceback := [], execution_state := "", stream_data := none,
        stream_text := "" } = StepOut.exit 0 ∧
    "foreignX" ∉ initState.clients ∧
    runMsgs initState ""
      [{ msg_type := "shutdown_reply", session := "foreignX", parent_msg_id := "q",
         code := "", execution_count := none, text_plain := "",
         traceback := [], execution_state := "", stream_data := none,
         stream_text := "" }] = RunResult.exited "" ∧
    RunResult.exited "" ≠ RunResult.ok initState "" := by
  exact ⟨by decide, by decide, by decide, by decide⟩

/-- C3 (amended): every sequence of non-shutdown events from
unregistered sessions whose code payload is not the sentinel marker is
discarded before any handler dispatch: the state machine state is
untouched and nothing is rendered.  (A `shutdown_reply` from an
unregistered session instead terminates the loop — see C10.) -/
theorem unregistered_events_discarded (st : MonitorState) (out : String)
    (msgs : List Msg)
    (h : ∀ m ∈ msgs, m.session ∉ st.clients ∧ m.code ≠ marker ∧
      m.msg_type ≠ "shutdown_reply") :
    runMsgs st out msgs = RunResult.ok st out := by
  revert h
  induction msgs generalizing out with
  | nil => intro _; rfl
  | cons m rest ih =>
    intro h
    have hm := h m (List.mem_cons_self m rest)
    have hstep : processMsg st m = StepOut.cont st "" :=
      processMsg_unregistered st m hm.1 hm.2.1 hm.2.2
    simp only [runMsgs, hstep, strAppendEmpty]
    exact ih out (fun m' hm' => h m' (List.mem_cons_of_mem _ hm'))

/-- C3 witness: an idle status and an input echo from an unregistered
session are both dropped with no state change and no output. -/
theorem unregistered_events_discarded_witness :
    runMsgs initState ""
      [{ msg_type := "status", session := "foreign", parent_msg_id := "a",
         code := "", execution_count := none, text_plain := "",
         traceback := [], execution_state := "idle", stream_data := none,
         stream_text := "" },
       { msg_type := "execute_input", session := "foreign", parent_msg_id := "b",
         code := "1+1", execution_count := some 2, text_plain := "",
         traceback := [], execution_state := "", stream_data := none,
         stream_text := "" }] = RunResult.ok initState "" :=
  unregistered_events_discarded _ _ _ (by decide)

/-- C5: processing the sentinel marker from an already-registered
session is idempotent — the state (including the `clients` set) is
returned exactly unchanged and nothing is rendered — and no step of the
loop ever removes a session: whenever a message is processed without
exiting or crashing, every previously registered session is still
registered. -/
theorem marker_idempotent_clients_monotone :
    (∀ st msg, msg.session ∈ st.clients → msg.session ≠ "" →
      (msg.msg_type = "execute_input" ∨ msg.msg_type = "pyin") →
      msg.code = marker → processMsg st msg = StepOut.cont st "") ∧
    (∀ st msg st2 o, processMsg st msg = StepOut.cont st2 o →
      ∀ c, c ∈ st.clients → c ∈ st2.clients) := by
  constructor
  · intro st msg hmem hne hty hcode
    have c1 : (msg.msg_type == "shutdown_reply") = false := by
      rcases hty with h | h <;> simp [h]
    have c2 : (msg.session != "" &&
        (msg.msg_type == "execute_input" || msg.msg_type == "pyin") &&
        msg.code == marker) = true := by
      rcases hty with h | h <;> simp [h, hcode, hne]
    have hins : insertClient msg.session st.clients = st.clients := by
      unfold insertClient
      rw [if_pos hmem]
    simp [processMsg, c1, c2, hins]
  · intro st msg st2 o h c hc
    unfold processMsg at h
    split at h
    · exact StepOut.noConfusion h
    · split at h
      · injection h with h1 _
        rw [← h1]
        exact insertClient_mem hc
      · split at h
        · split at h
          · rename_i st3 o3 heq
            injection h with h1 _
            rw [← h1, dispatchMsg_clients st msg st3 o3 heq]
            exact hc
          · exact StepOut.noConfusion h
        · injection h with h1 _
          rw [← h1]
          exact hc

/-- C5 witness: a repeated marker from the registered session `S`
leaves the state exactly as it was, and after a first marker registers
`T` the previously registered `S` is still present. -/
theorem marker_idempotent_clients_monotone_witness :
    processMsg
      { clients := ["S"], execution_count_id := none,
        last_msg_type := none, last_execution_count := 0 }
      { msg_type := "execute_input", session := "S", parent_msg_id := "m1",
        code := marker, execution_count := some 1, text_plain := "",
        traceback := [], execution_state := "", stream_data := none,
        stream_text := "" } =
      StepOut.cont
        { clients := ["S"], execution_count_id := none,
          last_msg_type := none, last_execution_count := 0 } "" ∧
    "S" ∈ (MonitorState.mk ["S", "T"] none none 0).clients := by
  constructor
  · exact marker_idempotent_clients_monotone.1 _ _ (by decide) (by decide)
      (Or.inl rfl) rfl
  · exact marker_idempotent_clients_monotone.2
      { clients := ["S"], execution_count_id := none,
        last_msg_type := none, last_execution_count := 0 }
      { msg_type := "execute_input", session := "T", parent_msg_id := "m2",
        code := marker, execution_count := some 1, text_plain := "",
        traceback := [], execution_state := "", stream_data := none,
        stream_text := "" }
      (MonitorState.mk ["S", "T"] none none 0) "" (by decide) "S" (by decide)

/-- C6 counterexample: the fallback handler does *not* set
`last_msg_type` to the event's kind — after a `comm_open` event the
state comes back exactly unchanged, with `last_msg_type` still `none`
rather than `some "comm_open"` as the claim requires. -/
theorem other_leaves_last_kind_unchanged :
    processMsg
      { clients := ["S"], execution_count_id := none,
        last_msg_type := none, last_execution_count := 0 }
      { msg_type := "comm_open", session := "S", parent_msg_id := "idc",
        code := "", execution_count := none, text_plain := "",
        traceback := [], execution_state := "", stream_data := none,
        stream_text := "" } =
      StepOut.cont
        { clients := ["S"], execution_count_id := none,
          last_msg_type := none, last_execution_count := 0 }
        ("msg_type = comm_open\nmsg = msg_type: comm_open, session: S, parent_msg_id: idc, code: , execution_count: absent, text_plain: , traceback: , execution_state: , stream_data: absent, stream_text: \n") ∧
    (MonitorState.mk ["S"] none none 0).last_msg_type ≠ some "comm_open" := by
  exact ⟨by set_option maxRecDepth 8000 in decide,
    by set_option maxRecDepth 8000 in decide⟩

/-- C6 (amended): every accepted event whose kind is not an attribute
of the monitor class (e.g. `comm_open`) is handled by the `other`
fallback, which renders a diagnostic containing the literal kind string
and the full payload, continues the loop, and leaves every state field
— including `last_msg_type` — unchanged. -/
theorem unrecognized_kind_diagnostic (st : MonitorState) (msg : Msg)
    (hacc : msg.session ∈ st.clients)
    (hsh : msg.msg_type ≠ "shutdown_reply")
    (hunk : msg.msg_type ∉ knownAttrs) :
    processMsg st msg = StepOut.cont st
      ("msg_type = " ++ msg.msg_type ++ "\n" ++
        ("msg = " ++ msgRepr msg ++ "\n")) ∧
    msg.msg_type.data <:+:
      ("msg_type = " ++ msg.msg_type ++ "\n" ++
        ("msg = " ++ msgRepr msg ++ "\n")).data := by
  have hne : ∀ t ∈ knownAttrs, msg.msg_type ≠ t := fun t ht he => hunk (he ▸ ht)
  have hin : msg.msg_type ≠ "execute_input" := hne "execute_input" (by decide)
  have hpy : msg.msg_type ≠ "pyin" := hne "pyin" (by decide)
  constructor
  · unfold processMsg
    rw [if_neg (by simp [hsh]), if_neg (by simp [hin, hpy]), if_pos hacc,
      dispatchMsg_unknown st msg hunk]
    rfl
  · exact ⟨"msg_type = ".data,
      ("\n" ++ ("msg = " ++ msgRepr msg ++ "\n")).data,
      by simp [strDataAppend]⟩

/-- C6 witness: a `comm_close` event from the registered session `T`
is rendered by the fallback with its kind and payload, and the state
comes back unchanged. -/
theorem unrecognized_kind_diagnostic_witness :
    processMsg
      { clients := ["T"], execution_count_id := none,
        last_msg_type := some "status", last_execution_count := 7 }
      { msg_type := "comm_close", session := "T", parent_msg_id := "x",
        code := "", execution_count := none, text_plain := "",
        traceback := [], execution_state := "", stream_data := none,
        stream_text := "" } =
      StepOut.cont
        { clients := ["T"], execution_count_id := none,
          last_msg_type := some "status", last_execution_count := 7 }
        ("msg_type = " ++ "comm_close" ++ "\n" ++
          ("msg = " ++ msgRepr
            { msg_type := "comm_close", session := "T", parent_msg_id := "x",
              code := "", execution_count := none, text_plain := "",
              traceback := [], execution_state := "", stream_data := none,
              stream_text := "" } ++ "\n")) ∧
    "comm_close".data <:+:
      ("msg_type = " ++ "comm_close" ++ "\n" ++
        ("msg = " ++ msgRepr
          { msg_type := "comm_close", session := "T", parent_msg_id := "x",
            code := "", execution_count := none, text_plain := "",
            traceback := [], execution_state := "", stream_data := none,
            stream_text := "" } ++ "\n")).data :=
  unrecognized_kind_diagnostic _ _ (by decide) (by decide) (by decide)

/-- C7: an accepted input echo stores the event's own execution counter
before rendering, so the rendered output starts with a carriage return
followed by the prompt computed from that counter; the resulting state
and rendered output are the same for every previously stored counter
(never a stale one), which makes prompt numbering follow the kernel's
counters. -/
theorem pyin_prompt_uses_event_counter (st : MonitorState) (msg : Msg)
    (ec : Int) (h : msg.execution_count = some ec) :
    ∃ stOut out, pyin st msg = some (stOut, out) ∧
      stOut.last_execution_count = ec ∧
      (∃ tail, out = "\r" ++
        (print_prompt { st with last_execution_count := ec } "In" 28 46 0).1 ++
        tail) ∧
      ∀ k, pyin { st with last_execution_count := k } msg = some (stOut, out) := by
  simp only [pyin, h]
  exact ⟨_, _, rfl, rfl, ⟨_, rfl⟩, fun k => rfl⟩

/-- C7 witness: with a stale stored counter 99, an input echo carrying
counter 5 renders the prompt for 5, and any other stored counter gives
the same result. -/
theorem pyin_prompt_uses_event_counter_witness :
    ∃ stOut out,
      pyin
        { clients := ["S"], execution_count_id := none,
          last_msg_type := none, last_execution_count := 99 }
        { msg_type := "execute_input", session := "S", parent_msg_id := "idw",
          code := "x = 1", execution_count := some 5, text_plain := "",
          traceback := [], execution_state := "", stream_data := none,
          stream_text := "" } = some (stOut, out) ∧
      stOut.last_execution_count = 5 ∧
      (∃ tail, out = "\r" ++
        (print_prompt
          { clients := ["S"], execution_count_id := none,
            last_msg_type := none, last_execution_count := 5 }
          "In" 28 46 0).1 ++ tail) ∧
      ∀ k, pyin
        { clients := ["S"], execution_count_id := none,
          last_msg_type := none, last_execution_count := k }
        { msg_type := "execute_input", session := "S", parent_msg_id := "idw",
          code := "x = 1", execution_count := some 5, text_plain := "",
          traceback := [], execution_state := "", stream_data := none,
          stream_text := "" } = some (stOut, out) :=
  pyin_prompt_uses_event_counter _ _ 5 rfl

/-- C4 counterexample: after input-echo(counter 3) the error handler
renders only the traceback lines — since the previous rendered event
was the input echo, no prompt is appended, and in particular no
rendering of a count `4` (the bold colourized `4` a prompt would write)
occurs anywhere in the output, contradicting the claimed fresh
`In [4]:` prompt after the traceback. -/
theorem error_after_input_no_prompt :
    runMsgs
      { clients := ["S"], execution_count_id := none,
        last_msg_type := none, last_execution_count := 0 } ""
      [{ msg_type := "execute_input", session := "S", parent_msg_id := "id1",
         code := "raise ValueError", execution_count := some 3,
         text_plain := "", traceback := [], execution_state := "",
         stream_data := none, stream_text := "" },
       { msg_type := "error", session := "S", parent_msg_id := "id1",
         code := "", execution_count := none, text_plain := "",
         traceback := ["Traceback...", "ValueError"], execution_state := "",
         stream_data := none, stream_text := "" }] =
      RunResult.ok
        { clients := ["S"], execution_count_id := some "id1",
          last_msg_type := some "error", last_execution_count := 3 }
        "\r\x1b[38;5;28mIn [\x1b[0m\x1b[38;5;46;1m3\x1b[0m\x1b[38;5;28m]: \x1b[0mraise ValueError\nTraceback...\nValueError" ∧
    ¬ ((colorizeInt "4" 46 true).data <:+:
      ("\r\x1b[38;5;28mIn [\x1b[0m\x1b[38;5;46;1m3\x1b[0m\x1b[38;5;28m]: \x1b[0mraise ValueError\nTraceback...\nValueError").data) := by
  exact ⟨by set_option maxRecDepth 8000 in decide,
    by set_option maxRecDepth 8000 in decide⟩

/-- C4 (amended): the error handler renders each traceback line
preceded by a newline; when the previously rendered event was an input
echo it appends nothing else (the fresh prompt must wait for a
correlated idle status), and only when the previous rendered event was
*not* an input echo does it append a fallback `In` prompt — built from
the current counter `N`, not `N + 1`. -/
theorem pyerr_prompt_only_after_non_input (st : MonitorState) (msg : Msg) :
    (st.last_msg_type ∈ [some "execute_input", some "pyin"] →
      pyerr st msg = ({ st with last_msg_type := some msg.msg_type },
        String.join (msg.traceback.map (fun line => "\n" ++ line)))) ∧
    (st.last_msg_type ∉ [some "execute_input", some "pyin"] →
      pyerr st msg = ({ st with last_msg_type := some msg.msg_type },
        String.join (msg.traceback.map (fun line => "\n" ++ line)) ++
          (print_prompt st "\nIn" 28 46 0).1)) := by
  constructor <;> intro h <;> simp [pyerr, h, strAppendEmpty]

/-- C4 witness: with the input echo as previous event the error output
is exactly the traceback lines; with an unrelated previous event the
fallback prompt (at the current counter) is appended. -/
theorem pyerr_prompt_only_after_non_input_witness :
    pyerr
      { clients := ["S"], execution_count_id := some "id1",
        last_msg_type := some "execute_input", last_execution_count := 3 }
      { msg_type := "error", session := "S", parent_msg_id := "id1",
        code := "", execution_count := none, text_plain := "",
        traceback := ["Traceback...", "ValueError"], execution_state := "",
        stream_data := none, stream_text := "" } =
      ({ clients := ["S"], execution_count_id := some "id1",
         last_msg_type := some "error", last_execution_count := 3 },
       String.join (["Traceback...", "ValueError"].map (fun line => "\n" ++ line))) ∧
    pyerr
      { clients := ["S"], execution_count_id := some "id1",
        last_msg_type := some "stream", last_execution_count := 3 }
      { msg_type := "error", session := "S", parent_msg_id := "id1",
        code := "", execution_count := none, text_plain := "",
        traceback := ["Traceback...", "ValueError"], execution_state := "",
        stream_data := none, stream_text := "" } =
      ({ clients := ["S"], execution_count_id := some "id1",
         last_msg_type := some "error", last_execution_count := 3 },
       String.join (["Traceback...", "ValueError"].map (fun line => "\n" ++ line)) ++
         (print_prompt
           { clients := ["S"], execution_count_id := some "id1",
             last_msg_type := some "stream", last_execution_count := 3 }
           "\nIn" 28 46 0).1) :=
  ⟨(pyerr_prompt_only_after_non_input _ _).1 (by simp),
   (pyerr_prompt_only_after_non_input _ _).2 (by simp)⟩

end Monitor
